import Mathlib

/-!
Shallow embedding of the core of the `trading-engines` repository
(`src/python/engine/`): the data structures, position / P&L arithmetic,
order manager operations, event-processor publish / sequencing logic and
the position-limit risk rule, together with theorems settling the claims
about them.

Modelling conventions:
* Python `float` fields are embedded as `ℚ` (the scenarios in the spec are
  exact decimal computations).
* Timestamps (`datetime` fields), logging, and metrics bookkeeping that no
  claim touches are omitted from the state.
* Python dictionaries are embedded as association lists; `None` becomes
  `Option`.
* Mutation is embedded as explicit state passing: each operation returns
  the updated record/state (and, where the code publishes events, the list
  of events it published).
-/

namespace TradingEngine

/-- `OrderSide` enum from `data_structures.py`. -/
inductive OrderSide
  | BUY
  | SELL
  deriving DecidableEq, Repr

/-- `OrderType` enum from `data_structures.py`. -/
inductive OrderType
  | MARKET
  | LIMIT
  | STOP
  | STOP_LIMIT
  | TRAILING_STOP
  | ICEBERG
  | TWAP
  | VWAP
  deriving DecidableEq, Repr

/-- `OrderStatus` enum from `data_structures.py`. -/
inductive OrderStatus
  | PENDING_NEW
  | NEW
  | PARTIALLY_FILLED
  | FILLED
  | PENDING_CANCEL
  | CANCELLED
  | REJECTED
  | EXPIRED
  deriving DecidableEq, Repr

/-- `EventType` enum from `data_structures.py`. -/
inductive EventType
  | MARKET_DATA
  | ORDER_UPDATE
  | TRADE_UPDATE
  | POSITION_UPDATE
  | STRATEGY_SIGNAL
  | RISK_CHECK
  | SYSTEM_EVENT
  deriving DecidableEq, Repr

/-- The `Order` dataclass from `data_structures.py` (timestamp, tag and
routing metadata fields that no claim touches are omitted). -/
structure Order where
  order_id : String := ""
  instrument_id : String := ""
  order_type : OrderType := OrderType.MARKET
  side : OrderSide := OrderSide.BUY
  quantity : ℚ := 0
  price : Option ℚ := none
  status : OrderStatus := OrderStatus.PENDING_NEW
  filled_quantity : ℚ := 0
  average_fill_price : Option ℚ := none
  strategy_id : Option String := none
  deriving DecidableEq, Repr

/-- `Order.is_active` from `data_structures.py`. -/
def Order.is_active (o : Order) : Bool :=
  o.status = OrderStatus.PENDING_NEW ∨ o.status = OrderStatus.NEW ∨
    o.status = OrderStatus.PARTIALLY_FILLED

/-- The `Trade` dataclass from `data_structures.py` (timestamp, exchange and
commission fields that no claim touches are omitted). -/
structure Trade where
  trade_id : String := ""
  order_id : String := ""
  instrument_id : String := ""
  quantity : ℚ := 0
  price : ℚ := 0
  side : OrderSide := OrderSide.BUY
  deriving DecidableEq, Repr

/-- The `Position` dataclass from `data_structures.py` (timestamp,
open-orders and strategy-allocation fields that no claim touches are
omitted). -/
structure Position where
  instrument_id : String
  quantity : ℚ := 0
  average_entry_price : ℚ := 0
  current_price : Option ℚ := none
  realized_pnl : ℚ := 0
  unrealized_pnl : ℚ := 0
  position_value : ℚ := 0
  deriving DecidableEq, Repr

/-- `Position.update_price` from `data_structures.py` lines 254-269: mark a
position to market at `new_price`.  Note the two branches for the
unrealized-P&L formula: the long branch uses
`quantity * (new_price - average_entry_price)` while the short branch uses
`quantity * (average_entry_price - new_price)` with `quantity` still
carrying its (negative) sign. -/
def Position.update_price (self : Position) (new_price : ℚ) : Position :=
  if self.quantity = 0 then
    { self with unrealized_pnl := 0, position_value := 0,
                current_price := some new_price }
  else
    let self1 := { self with current_price := some new_price,
                             position_value := self.quantity * new_price }
    if self1.quantity > 0 then
      { self1 with unrealized_pnl :=
          self1.quantity * (new_price - self1.average_entry_price) }
    else
      { self1 with unrealized_pnl :=
          self1.quantity * (self1.average_entry_price - new_price) }

/-- The tail of `Position.apply_trade` (`data_structures.py` lines 311-322):
the code that runs when the trade does not flip the position (the flip
branch returns early).  Updates the average entry price when the position
grew in its own direction or opened from flat, zeroes it on an exact close,
sets the new quantity and marks to market at the trade price. -/
def Position.applyTradeSettle (self : Position) (old_quantity old_cost_basis
    trade_quantity new_quantity : ℚ) (trade : Trade) : Position :=
  let self1 :=
    if new_quantity ≠ 0 then
      if old_quantity = 0 ∨ (old_quantity > 0 ∧ new_quantity > 0) ∨
          (old_quantity < 0 ∧ new_quantity < 0) then
        let new_cost_basis := old_cost_basis + abs trade_quantity * trade.price
        { self with average_entry_price := new_cost_basis / abs new_quantity }
      else self
    else
      { self with average_entry_price := 0 }
  let self2 := { self1 with quantity := new_quantity }
  self2.update_price trade.price

/-- `Position.apply_trade` from `data_structures.py` lines 271-322: update a
position with a new trade, realizing P&L on reductions, flips and closes. -/
def Position.apply_trade (self : Position) (trade : Trade) : Position :=
  let old_quantity := self.quantity
  let old_cost_basis :=
    if old_quantity ≠ 0 then abs old_quantity * self.average_entry_price else 0
  let trade_quantity :=
    match trade.side with
    | OrderSide.BUY => trade.quantity
    | OrderSide.SELL => -trade.quantity
  let new_quantity := old_quantity + trade_quantity
  if (old_quantity > 0 ∧ trade_quantity < 0) ∨
      (old_quantity < 0 ∧ trade_quantity > 0) then
    if abs trade_quantity ≤ abs old_quantity then
      -- partial or full closure
      let closing_quantity := min (abs trade_quantity) (abs old_quantity)
      let self1 :=
        if old_quantity > 0 then
          { self with realized_pnl := self.realized_pnl +
              closing_quantity * (trade.price - self.average_entry_price) }
        else
          { self with realized_pnl := self.realized_pnl +
              closing_quantity * (self.average_entry_price - trade.price) }
      self1.applyTradeSettle old_quantity old_cost_basis trade_quantity
        new_quantity trade
    else
      -- position crosses zero (flips): realize P&L on the entire old position
      let self1 :=
        if old_quantity > 0 then
          { self with realized_pnl := self.realized_pnl +
              old_quantity * (trade.price - self.average_entry_price) }
        else
          { self with realized_pnl := self.realized_pnl +
              (abs old_quantity) * (self.average_entry_price - trade.price) }
      let new_position_quantity :=
        (abs trade_quantity - abs old_quantity) *
          (if trade_quantity > 0 then 1 else -1)
      let self2 := { self1 with average_entry_price := trade.price,
                                quantity := new_position_quantity }
      self2.update_price trade.price
  else
    self.applyTradeSettle old_quantity old_cost_basis trade_quantity
      new_quantity trade

/-! ### Association-list embedding of Python dictionaries

Insertion of a fresh key appends at the end (Python dictionaries preserve
insertion order); writing an existing key keeps its place. -/

/-- Lookup in an association list (Python `d[k]` / `k in d`). -/
def lookupKey {α β : Type} [DecidableEq α] : List (α × β) → α → Option β
  | [], _ => none
  | (k, v) :: rest, key => if key = k then some v else lookupKey rest key

/-- Write a key in an association list (Python `d[k] = v`). -/
def setKey {α β : Type} [DecidableEq α] : List (α × β) → α → β → List (α × β)
  | [], key, val => [(key, val)]
  | (k, v) :: rest, key, val =>
    if key = k then (key, val) :: rest else (k, v) :: setKey rest key val

/-- Remove a key from an association list (Python `d.pop(k)`). -/
def removeKey {α β : Type} [DecidableEq α] : List (α × β) → α → List (α × β)
  | [], _ => []
  | (k, v) :: rest, key => if key = k then rest else (k, v) :: removeKey rest key

/-! ### Order manager: fill arithmetic -/

/-- The per-order fill arithmetic of `OrderManager._handle_trade_update`
(`order_manager.py` lines 58-78), run when the trade's parent order is in
the table: `filled_quantity += trade.quantity`; volume-weighted
`average_fill_price` (set to `trade.price` when it was `None`); then the
status update with the `1e-10` fill tolerance. -/
def OrderManager.applyFill (order : Order) (trade : Trade) : Order :=
  let filled := order.filled_quantity + trade.quantity
  let avg : Option ℚ :=
    match order.average_fill_price with
    | none => some trade.price
    | some a =>
        let prev_fill_qty := filled - trade.quantity
        some ((a * prev_fill_qty + trade.price * trade.quantity) / filled)
  let status :=
    if abs (filled - order.quantity) < 1 / 10 ^ 10 then OrderStatus.FILLED
    else if filled > 0 then OrderStatus.PARTIALLY_FILLED
    else order.status
  { order with filled_quantity := filled, average_fill_price := avg,
               status := status }

/-! ### Event bus -/

/-- The `Event.data` payload (`Any` in the source), restricted to the
variants the engine actually publishes. -/
inductive EventData
  | order (o : Order)
  | trade (t : Trade)
  | position (p : Position)
  | raw (s : String)
  deriving DecidableEq, Repr

/-- The `Event` dataclass from `data_structures.py` (timestamp and `target`
fields that no claim touches are omitted). -/
structure Event where
  event_type : EventType
  data : EventData := EventData.raw ""
  source : String := ""
  sequence_id : Option Nat := none
  priority : Int := 1
  deriving DecidableEq, Repr

/-- State of `EventProcessor` (`event_processor.py` lines 15-36) relevant to
publishing: the queue contents, the dropped-event counter and the per-type
throttle state.  `time.time()` values are embedded as `ℚ` and threaded as an
explicit `current_time` argument.  `_throttle_counters` is a
`defaultdict(int)` and `_throttle_last_reset` a `defaultdict(time.time)`:
a missing key reads as `0` resp. as the time of the first access. -/
structure EventProcessorState where
  max_queue_size : Nat := 10000
  event_queue : List Event := []
  dropped_events_count : Nat := 0
  throttle_levels : List (EventType × Nat) := []
  throttle_counters : List (EventType × Nat) := []
  throttle_last_reset : List (EventType × ℚ) := []
  deriving DecidableEq, Repr

/-- Outcome of one call to `EventProcessor.publish`: either the coroutine
returns a boolean, or it suspends inside `await self.event_queue.put(...)`
waiting for queue space. -/
inductive PublishOutcome
  | returned (accepted : Bool)
  | suspended
  deriving DecidableEq, Repr

/-- `asyncio.PriorityQueue.put` semantics (used by `publish` at
`event_processor.py` line 83): append when a slot is free, otherwise
suspend until a consumer frees one.  `put` never raises
`asyncio.QueueFull` — only `put_nowait` does — so the
`except asyncio.QueueFull` branch of `publish` (lines 92-95) is
unreachable. -/
def EventProcessor.queuePut (s : EventProcessorState) (event : Event) :
    PublishOutcome × EventProcessorState :=
  if s.event_queue.length < s.max_queue_size then
    (PublishOutcome.returned true, { s with event_queue := s.event_queue ++ [event] })
  else
    (PublishOutcome.suspended, s)

/-- `EventProcessor.publish` from `event_processor.py` lines 59-95: the
throttle gate (reset the per-type counter once a second; drop and count
when the counter has reached the limit; otherwise increment it) followed by
the queue put.  The metrics sampling on lines 86-89 touches no state a
claim mentions and is omitted. -/
def EventProcessor.publish (s : EventProcessorState) (current_time : ℚ)
    (event : Event) : PublishOutcome × EventProcessorState :=
  match lookupKey s.throttle_levels event.event_type with
  | some max_events =>
      let last_reset := (lookupKey s.throttle_last_reset event.event_type).getD current_time
      let counter0 := (lookupKey s.throttle_counters event.event_type).getD 0
      let reset := current_time - last_reset ≥ 1
      let counter1 := if reset then 0 else counter0
      let last_reset1 := if reset then current_time else last_reset
      let s1 := { s with
        throttle_counters := setKey s.throttle_counters event.event_type counter1,
        throttle_last_reset := setKey s.throttle_last_reset event.event_type last_reset1 }
      if counter1 ≥ max_events then
        (PublishOutcome.returned false,
         { s1 with dropped_events_count := s1.dropped_events_count + 1 })
      else
        let s2 := { s1 with
          throttle_counters := setKey s1.throttle_counters event.event_type (counter1 + 1) }
        EventProcessor.queuePut s2 event
  | none => EventProcessor.queuePut s event

/-- Run a list of timestamped publishes in order, collecting the
`(time, event)` pairs that `publish` accepted (returned `True` for). -/
def EventProcessor.runPublish (s : EventProcessorState) :
    List (ℚ × Event) → List (ℚ × Event) × EventProcessorState
  | [] => ([], s)
  | (t, e) :: rest =>
      let (outcome, s1) := EventProcessor.publish s t e
      let (acc, s2) := EventProcessor.runPublish s1 rest
      (if outcome = PublishOutcome.returned true then (t, e) :: acc else acc, s2)

/-! ### Event bus: per-source sequence reordering -/

/-- The sequence-tracking state of `EventProcessor` (`event_processor.py`
lines 23-24): `sequence_counters` is a `defaultdict(int)` and
`pending_events` a per-source buffer keyed by `sequence_id`. -/
structure SequencerState where
  sequence_counters : List (String × Nat) := []
  pending_events : List (String × List (Nat × Event)) := []
  deriving DecidableEq, Repr

/-- The `while next_seq in self.pending_events[source]` drain loop of
`_handle_sequenced_event` (`event_processor.py` lines 135-140): pop and
deliver contiguous buffered successors, counting the counter increments.
The fuel argument bounds the recursion; `pending.length` suffices since
each step removes one buffered entry. -/
def EventProcessor.drainPending : List (Nat × Event) → Nat → Nat →
    List Event × List (Nat × Event) × Nat
  | pending, _, 0 => ([], pending, 0)
  | pending, next_seq, fuel + 1 =>
    match lookupKey pending next_seq with
    | none => ([], pending, 0)
    | some e =>
        let rest := EventProcessor.drainPending (removeKey pending next_seq)
          (next_seq + 1) fuel
        (e :: rest.1, rest.2.1, rest.2.2 + 1)

/-- One iteration of `EventProcessor.event_loop` (`event_processor.py`
lines 159-165) after dequeuing `event`, combined with
`_handle_sequenced_event` (lines 119-150).  Returns the new sequencer state
and the list of events delivered to handlers, in delivery order.  Note the
order the code produces: when `sequence_id` matches the expected counter,
`_handle_sequenced_event` itself processes the drained buffered successors
(line 138) and only afterwards returns `True`, whereupon `event_loop`
processes the triggering event (line 165) — so the drained events precede
the triggering event in delivery order. -/
def EventProcessor.dequeueStep (s : SequencerState) (event : Event) :
    SequencerState × List Event :=
  match event.sequence_id with
  | none => (s, [event])
  | some seq =>
    let source := event.source
    let expected_seq := (lookupKey s.sequence_counters source).getD 0
    let pending := (lookupKey s.pending_events source).getD []
    if seq = expected_seq then
      let drained := EventProcessor.drainPending pending (expected_seq + 1)
        pending.length
      ({ sequence_counters :=
           setKey s.sequence_counters source (expected_seq + 1 + drained.2.2),
         pending_events := setKey s.pending_events source drained.2.1 },
       drained.1 ++ [event])
    else if seq > expected_seq then
      ({ s with pending_events :=
           setKey s.pending_events source (setKey pending seq event) }, [])
    else
      (s, [])

/-- Run the dequeue-and-dispatch step over a list of events in arrival
order, concatenating the delivered events in delivery order. -/
def EventProcessor.runDequeue (s : SequencerState) :
    List Event → SequencerState × List Event
  | [] => (s, [])
  | e :: rest =>
      let step := EventProcessor.dequeueStep s e
      let next := EventProcessor.runDequeue step.1 rest
      (next.1, step.2 ++ next.2)

/-! ### Order manager: state and the cancel / modify operations -/

/-- The mutable state of `OrderManager` (`order_manager.py` lines 14-21)
plus a log of the events it published; the callback registry, which no
claim touches, is omitted. -/
structure OrderManagerState where
  orders : List (String × Order) := []
  active_orders : List String := []
  order_history : List (String × List Order) := []
  published : List Event := []
  deriving DecidableEq, Repr

/-- `OrderManager._save_order_history` (`order_manager.py` lines 104-111):
append a snapshot of the order to its history list, creating the list on
first use. -/
def OrderManager.saveOrderHistory (h : List (String × List Order))
    (order : Order) : List (String × List Order) :=
  setKey h order.order_id (((lookupKey h order.order_id).getD []) ++ [order])

/-- Add an id to the active set (`self.active_orders.add(...)`): a set, so
adding a present id is a no-op. -/
def OrderManager.activeAdd (ids : List String) (order_id : String) :
    List String :=
  if order_id ∈ ids then ids else ids ++ [order_id]

/-- `OrderManager._update_order_state` (`order_manager.py` lines 90-102):
store the order, maintain the active set by `is_active`, and append a
history snapshot. -/
def OrderManager.updateOrderState (s : OrderManagerState) (order : Order) :
    OrderManagerState :=
  let active :=
    if order.is_active then OrderManager.activeAdd s.active_orders order.order_id
    else s.active_orders.erase order.order_id
  { s with orders := setKey s.orders order.order_id order,
           active_orders := active,
           order_history := OrderManager.saveOrderHistory s.order_history order }

/-- `OrderManager.cancel_order` (`order_manager.py` lines 140-170). -/
def OrderManager.cancel_order (s : OrderManagerState) (order_id : String) :
    Bool × OrderManagerState :=
  match lookupKey s.orders order_id with
  | none => (false, s)
  | some order =>
    if order_id ∉ s.active_orders then (false, s)
    else if order.status ≠ OrderStatus.NEW ∧
        order.status ≠ OrderStatus.PARTIALLY_FILLED then (false, s)
    else
      let order1 := { order with status := OrderStatus.PENDING_CANCEL }
      (true,
       { s with orders := setKey s.orders order_id order1,
                order_history := OrderManager.saveOrderHistory s.order_history order1,
                published := s.published ++
                  [{ event_type := EventType.ORDER_UPDATE,
                     data := EventData.order order1, source := "order_manager" }] })

/-- The tail of `OrderManager.modify_order` (`order_manager.py` lines
203-215) once all preconditions passed: store the modified snapshot via
`_update_order_state` and publish the ORDER_UPDATE event. -/
def OrderManager.finishModify (s : OrderManagerState) (modified : Order) :
    Bool × OrderManagerState :=
  let s1 := OrderManager.updateOrderState s modified
  (true,
   { s1 with published := s1.published ++
       [{ event_type := EventType.ORDER_UPDATE,
          data := EventData.order modified, source := "order_manager" }] })

/-- `OrderManager.modify_order` (`order_manager.py` lines 172-215).  The
modified order is a copy (`Order.from_dict(order.to_dict())`); when the
quantity precondition fails the copy is discarded, so the stored state is
untouched even if the price field had already been set on the copy. -/
def OrderManager.modify_order (s : OrderManagerState) (order_id : String)
    (price : Option ℚ) (quantity : Option ℚ) : Bool × OrderManagerState :=
  match lookupKey s.orders order_id with
  | none => (false, s)
  | some order =>
    if order_id ∉ s.active_orders then (false, s)
    else if order.status ≠ OrderStatus.NEW ∧
        order.status ≠ OrderStatus.PARTIALLY_FILLED then (false, s)
    else
      let modified1 :=
        match price with
        | some p => { order with price := some p }
        | none => order
      match quantity with
      | some q =>
          if order.status = OrderStatus.PARTIALLY_FILLED ∧
              q < order.filled_quantity then (false, s)
          else OrderManager.finishModify s { modified1 with quantity := q }
      | none => OrderManager.finishModify s modified1

/-! ### Position manager -/

/-- `PositionManager.get_position` (`position_manager.py` lines 103-107):
look a position up by instrument, creating (and storing) a fresh default
`Position` when the instrument has never been seen.  Returns the position
and the updated table. -/
def PositionManager.get_position (positions : List (String × Position))
    (instrument_id : String) : Position × List (String × Position) :=
  match lookupKey positions instrument_id with
  | some p => (p, positions)
  | none =>
      let p : Position := { instrument_id := instrument_id }
      (p, positions ++ [(instrument_id, p)])

/-- `PositionManager.get_all_positions` (`position_manager.py` lines
109-111): `list(self.positions.values())`. -/
def PositionManager.get_all_positions
    (positions : List (String × Position)) : List Position :=
  positions.map Prod.snd

/-- The `position_count` entry of `PositionManager.get_position_statistics`
(`position_manager.py` line 179): `len(self.positions)`. -/
def PositionManager.positionCount (positions : List (String × Position)) : Nat :=
  positions.length

/-! ### Risk manager: the position-limit rule -/

/-- `PositionLimitRule` (`risk_manager.py` lines 32-37): instrument and
maximum absolute position size. -/
structure PositionLimitRule where
  instrument_id : String
  max_position : ℚ
  deriving DecidableEq, Repr

/-- The decision logic of `PositionLimitRule.check` (`risk_manager.py`
lines 39-68) given the signed quantity the `get_position` call returned:
pass when the context's order is on a different instrument; with an order,
fail exactly when the prospective magnitude (`|q + qty|` for BUY,
`|q - qty|` for SELL) exceeds `max_position`; with no order (periodic
context), fail exactly when `|q|` exceeds `max_position`. -/
def PositionLimitRule.checkPassed (rule : PositionLimitRule)
    (ctx_order : Option Order) (position_quantity : ℚ) : Bool :=
  match ctx_order with
  | some order =>
    if order.instrument_id ≠ rule.instrument_id then true
    else
      let new_position :=
        match order.side with
        | OrderSide.BUY => abs (position_quantity + order.quantity)
        | OrderSide.SELL => abs (position_quantity - order.quantity)
      if new_position > rule.max_position then false else true
  | none => if abs position_quantity > rule.max_position then false else true

/-- `PositionLimitRule.check` (`risk_manager.py` lines 39-68) at the level
of the position table: after the different-instrument early return, the
rule fetches the position through
`risk_manager.position_manager.get_position(self.instrument_id)` — which
inserts a fresh flat position when the instrument has never traded — and
then decides as in `PositionLimitRule.checkPassed`.  Returns the result
together with the (possibly grown) position table. -/
def PositionLimitRule.checkWithState (rule : PositionLimitRule)
    (ctx_order : Option Order) (positions : List (String × Position)) :
    Bool × List (String × Position) :=
  match ctx_order with
  | some order =>
    if order.instrument_id ≠ rule.instrument_id then (true, positions)
    else
      let r := PositionManager.get_position positions rule.instrument_id
      (rule.checkPassed ctx_order r.1.quantity, r.2)
  | none =>
      let r := PositionManager.get_position positions rule.instrument_id
      (rule.checkPassed ctx_order r.1.quantity, r.2)

/-! ## Helper lemmas on association lists -/

theorem lookupKey_setKey_self {α β : Type} [DecidableEq α]
    (l : List (α × β)) (k : α) (v : β) : lookupKey (setKey l k v) k = some v := by
  induction l with
  | nil => simp [setKey, lookupKey]
  | cons hd tl ih =>
      by_cases h : k = hd.1
      · simp [setKey, lookupKey, h]
      · simp [setKey, lookupKey, h, ih]

theorem lookupKey_setKey_other {α β : Type} [DecidableEq α]
    (l : List (α × β)) (k k' : α) (v : β) (h : k' ≠ k) :
    lookupKey (setKey l k v) k' = lookupKey l k' := by
  induction l with
  | nil => simp [setKey, lookupKey, h]
  | cons hd tl ih =>
      by_cases hk : k = hd.1
      · subst hk
        simp [setKey, lookupKey, h]
      · by_cases hk' : k' = hd.1
        · simp [setKey, lookupKey, hk, hk']
        · simp [setKey, lookupKey, hk, hk', ih]

theorem lookupKey_append_single_other {α β : Type} [DecidableEq α]
    (l : List (α × β)) (k k' : α) (v : β) (h : k' ≠ k) :
    lookupKey (l ++ [(k, v)]) k' = lookupKey l k' := by
  induction l with
  | nil => simp [lookupKey, h]
  | cons hd tl ih =>
      by_cases hk' : k' = hd.1
      · simp [lookupKey, hk']
      · simp [lookupKey, hk', ih]

/-! ## Claims -/

/-- Claim C1 (refuted by the code; the spec formula is the intent): the
claim says `Position.update_price` sets `unrealized_pnl = q × (p − avg)`
for long and short alike, with `q` signed.  The code's short branch
(`data_structures.py` line 269) instead computes `q × (avg − p)`, the
negation.  At the failing input — a short position `q = −5` with entry
price 100 marked at price 90 — the code stores `unrealized_pnl = −50`
(it stores `current_price` and `position_value = q × p` as claimed),
whereas the claim's formula gives `q × (p − avg) = 50`: a genuine short
position profits when the price falls, consistent with the realized-P&L
arithmetic of `apply_trade`. -/
theorem C1_short_mark_to_market_sign_flipped :
    let pos : Position :=
      { instrument_id := "X", quantity := -5, average_entry_price := 100 }
    let marked := pos.update_price 90
    marked.current_price = some 90 ∧ marked.position_value = -5 * 90 ∧
      marked.unrealized_pnl = -50 ∧
      marked.quantity * ((90 : ℚ) - marked.average_entry_price) = 50 ∧
      marked.unrealized_pnl ≠
        marked.quantity * ((90 : ℚ) - marked.average_entry_price) := by
  norm_num [Position.update_price]

/-- Claim C2: starting flat, `apply_trade` of BUY 10 @ 100 followed by
SELL 15 @ 110 takes the flip branch and yields `realized_pnl = 100`,
`quantity = −5`, `average_entry_price = 110` and `unrealized_pnl = 0`
after the final mark-to-market at 110. -/
theorem C2_long_flip_to_short :
    let flat : Position := { instrument_id := "X" }
    let p1 := flat.apply_trade
      { quantity := 10, price := 100, side := OrderSide.BUY }
    let p2 := p1.apply_trade
      { quantity := 15, price := 110, side := OrderSide.SELL }
    p2.realized_pnl = 100 ∧ p2.quantity = -5 ∧
      p2.average_entry_price = 110 ∧ p2.unrealized_pnl = 0 := by
  norm_num [Position.apply_trade, Position.applyTradeSettle, Position.update_price]

/-- Claim C3: on a TRADE_UPDATE for a known order, `applyFill` adds
`trade.quantity` to `filled_quantity` and sets `average_fill_price` to the
volume-weighted accumulation `(avg_old × prev_filled + price × qty) /
new_filled` (to `trade.price` when there was no prior average); concretely,
a LIMIT BUY 10 filled by 3 @ 99 then 7 @ 101 passes through
`filled = 3, avg = 99`, PARTIALLY_FILLED and ends at
`filled = 10, avg = 100.4`, FILLED. -/
theorem C3_trade_update_fill_average :
    (∀ (o : Order) (t : Trade),
        (OrderManager.applyFill o t).filled_quantity =
          o.filled_quantity + t.quantity) ∧
    (∀ (o : Order) (t : Trade), o.average_fill_price = none →
        (OrderManager.applyFill o t).average_fill_price = some t.price) ∧
    (∀ (o : Order) (t : Trade) (a : ℚ), o.average_fill_price = some a →
        (OrderManager.applyFill o t).average_fill_price =
          some ((a * o.filled_quantity + t.price * t.quantity) /
            (o.filled_quantity + t.quantity))) ∧
    (let o0 : Order :=
       { order_id := "O1", order_type := OrderType.LIMIT,
         side := OrderSide.BUY, quantity := 10, price := some 100,
         status := OrderStatus.NEW }
     let o1 := OrderManager.applyFill o0
       { order_id := "O1", quantity := 3, price := 99, side := OrderSide.BUY }
     let o2 := OrderManager.applyFill o1
       { order_id := "O1", quantity := 7, price := 101, side := OrderSide.BUY }
     o1.filled_quantity = 3 ∧ o1.average_fill_price = some 99 ∧
       o1.status = OrderStatus.PARTIALLY_FILLED ∧ o2.filled_quantity = 10 ∧
       o2.average_fill_price = some 100.4 ∧ o2.status = OrderStatus.FILLED) := by
  refine ⟨?_, ?_, ?_, ?_⟩
  · intro o t
    simp [OrderManager.applyFill]
  · intro o t h
    simp [OrderManager.applyFill, h]
  · intro o t a h
    simp only [OrderManager.applyFill, h]
    congr 1
    ring_nf
  · norm_num [OrderManager.applyFill]

/-- Witness for C3 at a concrete input: a first fill of 3 @ 99 on a fresh
LIMIT BUY 10 (no prior average) yields `filled_quantity = 3` and
`average_fill_price = 99`. -/
theorem C3_trade_update_fill_average_witness :
    (OrderManager.applyFill
      { order_id := "O1", order_type := OrderType.LIMIT,
        side := OrderSide.BUY, quantity := 10, price := some 100,
        status := OrderStatus.NEW }
      { order_id := "O1", quantity := 3, price := 99,
        side := OrderSide.BUY }).filled_quantity = 0 + 3 ∧
    (OrderManager.applyFill
      { order_id := "O1", order_type := OrderType.LIMIT,
        side := OrderSide.BUY, quantity := 10, price := some 100,
        status := OrderStatus.NEW }
      { order_id := "O1", quantity := 3, price := 99,
        side := OrderSide.BUY }).average_fill_price = some 99 :=
  ⟨C3_trade_update_fill_average.1 _ _, C3_trade_update_fill_average.2.1 _ _ rfl⟩

/-- Counterexample to claim C5 as stated: `_handle_trade_update` adds the
trade quantity to `filled_quantity` without clamping, so a trade whose
quantity exceeds the order's remaining quantity drives `filled_quantity`
above `quantity`: an order of quantity 10 hit by a trade of 15 ends with
`filled_quantity = 15 > 10` (and status PARTIALLY_FILLED). -/
theorem C5_overfill_breaks_invariant :
    let o : Order :=
      { order_id := "O1", quantity := 10, status := OrderStatus.NEW }
    let t : Trade :=
      { order_id := "O1", quantity := 15, price := 100,
        side := OrderSide.BUY }
    (OrderManager.applyFill o t).filled_quantity = 15 ∧
      ¬ (OrderManager.applyFill o t).filled_quantity ≤
        (OrderManager.applyFill o t).quantity := by
  norm_num [OrderManager.applyFill]

/-- Claim C5 as amended: the order-fill invariant
`0 ≤ filled_quantity ≤ quantity` is preserved by a handled TRADE_UPDATE
provided the trade's positive quantity does not exceed the order's
remaining quantity (the code never clamps, so an over-sized trade breaks
the upper bound). -/
theorem C5_fill_invariant_preserved (o : Order) (t : Trade)
    (h0 : 0 ≤ o.filled_quantity) (h1 : o.filled_quantity ≤ o.quantity)
    (h2 : 0 < t.quantity) (h3 : t.quantity ≤ o.quantity - o.filled_quantity) :
    0 ≤ (OrderManager.applyFill o t).filled_quantity ∧
      (OrderManager.applyFill o t).filled_quantity ≤
        (OrderManager.applyFill o t).quantity := by
  have hf : (OrderManager.applyFill o t).filled_quantity =
      o.filled_quantity + t.quantity := by
    simp [OrderManager.applyFill]
  have hq : (OrderManager.applyFill o t).quantity = o.quantity := by
    simp [OrderManager.applyFill]
  rw [hf, hq]
  constructor <;> linarith

/-- Witness for the amended C5: a fill of 3 on a BUY 10 with no prior
fills keeps `0 ≤ filled_quantity ≤ quantity`. -/
theorem C5_fill_invariant_preserved_witness :
    0 ≤ (OrderManager.applyFill
      { order_id := "O1", quantity := 10, status := OrderStatus.NEW }
      { order_id := "O1", quantity := 3, price := 99,
        side := OrderSide.BUY }).filled_quantity ∧
    (OrderManager.applyFill
      { order_id := "O1", quantity := 10, status := OrderStatus.NEW }
      { order_id := "O1", quantity := 3, price := 99,
        side := OrderSide.BUY }).filled_quantity ≤
      (OrderManager.applyFill
        { order_id := "O1", quantity := 10, status := OrderStatus.NEW }
        { order_id := "O1", quantity := 3, price := 99,
          side := OrderSide.BUY }).quantity :=
  C5_fill_invariant_preserved _ _ (by norm_num) (by norm_num) (by norm_num)
    (by norm_num)

/-- Claim C4 (refuted by the code; the claimed drop is the intent): the
claim says a publish on a full queue drops the event, increments the
dropped counter by 1 and returns false without blocking.  But `publish`
awaits `self.event_queue.put(...)` (`event_processor.py` line 83), and on
a full `asyncio` queue `put` suspends until a consumer frees space — it
never raises `QueueFull` (only `put_nowait` does), so the
`except asyncio.QueueFull` drop branch (lines 92-95) is unreachable.  At
the failing input — a capacity-1 queue already holding an event and no
throttle configured — `publish` suspends instead of returning false, and
the dropped counter stays 0. -/
theorem C4_publish_on_full_queue_blocks :
    let e : Event := { event_type := EventType.MARKET_DATA }
    let s : EventProcessorState := { max_queue_size := 1, event_queue := [e] }
    EventProcessor.publish s 0 e = (PublishOutcome.suspended, s) ∧
      (EventProcessor.publish s 0 e).1 ≠ PublishOutcome.returned false ∧
      (EventProcessor.publish s 0 e).2.dropped_events_count = 0 := by
  refine ⟨?_, ?_, ?_⟩ <;>
    simp [EventProcessor.publish, EventProcessor.queuePut, lookupKey]

/-- Claim C6 (refuted by the code; in-order delivery is the documented
intent): the claim says events from one source arriving with sequence ids
0, 2, 1 are delivered to handlers in order 0, 1, 2.  In the code, when the
expected event arrives, `_handle_sequenced_event` delivers the drained
buffered successors itself (`event_processor.py` line 138) and only then
returns `True`, whereupon `event_loop` (line 165) delivers the triggering
event — so arrivals 0, 2, 1 are handler-delivered in order 0, 2, 1, not
0, 1, 2. -/
theorem C6_drained_events_delivered_before_trigger :
    let ev : Nat → Event := fun n =>
      { event_type := EventType.MARKET_DATA, source := "S",
        sequence_id := some n }
    ((EventProcessor.runDequeue {} [ev 0, ev 2, ev 1]).2.map
        Event.sequence_id) = [some 0, some 2, some 1] ∧
      [some (0 : Nat), some 2, some 1] ≠ [some 0, some 1, some 2] := by
  constructor
  · rfl
  · decide

/-- Counterexample to claim C7 as stated: the throttle is a counter that
resets at most once a second, not a sliding-window limiter, so more than
`k` events can be accepted inside a single 1-second window that straddles
a reset.  With a limit of `k = 2` on MARKET_DATA, publishes at times
0, 1/2, 1, 7/5 are all four accepted (the reset at time 1 clears the
counter), yet the three accepted events at 1/2, 1 and 7/5 lie within a
span of 9/10 < 1 second. -/
theorem C7_sliding_window_can_exceed_limit :
    let md : Event := { event_type := EventType.MARKET_DATA }
    let s : EventProcessorState :=
      { max_queue_size := 100,
        throttle_levels := [(EventType.MARKET_DATA, 2)] }
    ((EventProcessor.runPublish s
        [(0, md), (1/2, md), (1, md), (7/5, md)]).1.map Prod.fst) =
      [0, 1/2, 1, 7/5] ∧ (7/5 : ℚ) - 1/2 < 1 := by
  constructor
  · norm_num [EventProcessor.runPublish, EventProcessor.publish,
      EventProcessor.queuePut, lookupKey, setKey]
  · norm_num

/-- Helper for the amended claim C7: within a single throttle reset window
(every publish happens less than one second after the window's reset time
`r`), a run of publishes of a throttled type accepts at most `k − c` events
when the counter already stands at `c`. -/
theorem runPublish_throttle_window_bound (ty : EventType) (k : Nat) :
    ∀ (l : List (ℚ × Event)) (s : EventProcessorState) (c : Nat) (r : ℚ),
      lookupKey s.throttle_levels ty = some k →
      lookupKey s.throttle_counters ty = some c →
      lookupKey s.throttle_last_reset ty = some r →
      (∀ te ∈ l, te.2.event_type = ty ∧ te.1 - r < 1) →
      (EventProcessor.runPublish s l).1.length ≤ k - c := by
  intro l
  induction l with
  | nil =>
      intro s c r _ _ _ _
      simp [EventProcessor.runPublish]
  | cons hd tl ih =>
      intro s c r hlv hc hr hall
      obtain ⟨hty, htime⟩ := hall hd (List.mem_cons_self _ _)
      have htl : ∀ te ∈ tl, te.2.event_type = ty ∧ te.1 - r < 1 := by
        intro te hte
        exact hall te (List.mem_cons_of_mem _ hte)
      have hreset : ¬ (hd.1 - r ≥ 1) := not_le.mpr htime
      by_cases hck : c ≥ k
      · have heq : EventProcessor.runPublish s (hd :: tl) =
          (let s1 : EventProcessorState := { s with
              throttle_counters := setKey s.throttle_counters ty c,
              throttle_last_reset := setKey s.throttle_last_reset ty r,
              dropped_events_count := s.dropped_events_count + 1 }
           let rest := EventProcessor.runPublish s1 tl
           (rest.1, rest.2)) := by
          simp only [EventProcessor.runPublish, EventProcessor.publish, hty,
            hlv, hc, hr, Option.getD_some, if_neg hreset, if_pos hck]
          simp
        rw [heq]
        exact ih _ c r (by simpa using hlv)
          (by simpa using lookupKey_setKey_self s.throttle_counters ty c)
          (by simpa using lookupKey_setKey_self s.throttle_last_reset ty r) htl
      · have hck' : c < k := not_le.mp hck
        by_cases hqs : s.event_queue.length < s.max_queue_size
        · have heq : EventProcessor.runPublish s (hd :: tl) =
            (let s2 : EventProcessorState := { s with
                throttle_counters :=
                  setKey (setKey s.throttle_counters ty c) ty (c + 1),
                throttle_last_reset := setKey s.throttle_last_reset ty r,
                event_queue := s.event_queue ++ [hd.2] }
             let rest := EventProcessor.runPublish s2 tl
             (hd :: rest.1, rest.2)) := by
            simp only [EventProcessor.runPublish, EventProcessor.publish,
              EventProcessor.queuePut, hty, hlv, hc, hr, Option.getD_some,
              if_neg hreset, if_neg hck, if_pos hqs]
            simp
          rw [heq]
          have hrec := ih ({ s with
              throttle_counters :=
                setKey (setKey s.throttle_counters ty c) ty (c + 1),
              throttle_last_reset := setKey s.throttle_last_reset ty r,
              event_queue := s.event_queue ++ [hd.2] }) (c + 1) r
            (by simpa using hlv)
            (by simpa using
              lookupKey_setKey_self (setKey s.throttle_counters ty c) ty (c + 1))
            (by simpa using lookupKey_setKey_self s.throttle_last_reset ty r) htl
          simp only [List.length_cons]
          omega
        · have heq : EventProcessor.runPublish s (hd :: tl) =
            (let s2 : EventProcessorState := { s with
                throttle_counters :=
                  setKey (setKey s.throttle_counters ty c) ty (c + 1),
                throttle_last_reset := setKey s.throttle_last_reset ty r }
             let rest := EventProcessor.runPublish s2 tl
             (rest.1, rest.2)) := by
            simp only [EventProcessor.runPublish, EventProcessor.publish,
              EventProcessor.queuePut, hty, hlv, hc, hr, Option.getD_some,
              if_neg hreset, if_neg hck, if_neg hqs]
            simp
          rw [heq]
          have hrec := ih ({ s with
              throttle_counters :=
                setKey (setKey s.throttle_counters ty c) ty (c + 1),
              throttle_last_reset := setKey s.throttle_last_reset ty r }) (c + 1) r
            (by simpa using hlv)
            (by simpa using
              lookupKey_setKey_self (setKey s.throttle_counters ty c) ty (c + 1))
            (by simpa using lookupKey_setKey_self s.throttle_last_reset ty r) htl
          simp only []
          omega

/-- Claim C7 as amended: the throttle bounds acceptances per reset window,
not per sliding 1-second window.  (1) When the counter for the event's
type has reached the limit `k` and less than one second has passed since
the window's reset time, `publish` drops the event: it returns false and
increments the dropped counter by exactly 1, leaving the queue untouched.
(2) Within a single reset window — every publish less than one second
after reset time `r` — at most `k − c` events of the throttled type are
accepted when the counter starts at `c` (so at most `k` from a fresh
window). -/
theorem C7_throttle_limits_per_reset_window :
    (∀ (s : EventProcessorState) (t : ℚ) (e : Event) (k c : Nat) (r : ℚ),
        lookupKey s.throttle_levels e.event_type = some k →
        lookupKey s.throttle_counters e.event_type = some c →
        lookupKey s.throttle_last_reset e.event_type = some r →
        t - r < 1 → k ≤ c →
        EventProcessor.publish s t e =
          (PublishOutcome.returned false,
           { s with
             throttle_counters := setKey s.throttle_counters e.event_type c,
             throttle_last_reset :=
               setKey s.throttle_last_reset e.event_type r,
             dropped_events_count := s.dropped_events_count + 1 })) ∧
    (∀ (ty : EventType) (k : Nat) (l : List (ℚ × Event))
        (s : EventProcessorState) (c : Nat) (r : ℚ),
        lookupKey s.throttle_levels ty = some k →
        lookupKey s.throttle_counters ty = some c →
        lookupKey s.throttle_last_reset ty = some r →
        (∀ te ∈ l, te.2.event_type = ty ∧ te.1 - r < 1) →
        (EventProcessor.runPublish s l).1.length ≤ k - c) := by
  constructor
  · intro s t e k c r hlv hc hr htime hkc
    have hreset : ¬ (t - r ≥ 1) := not_le.mpr htime
    simp only [EventProcessor.publish, hlv, hc, hr, Option.getD_some,
      if_neg hreset, if_pos hkc]
  · exact fun ty k => runPublish_throttle_window_bound ty k

/-- Witness for the amended C7 at concrete inputs: with a limit of 2 on
MARKET_DATA, a counter already at 2 and reset time 0, a publish at time
1/2 returns false with the dropped counter at 1; and a fresh-window run of
three publishes at times 0, 1/4, 1/2 accepts at most 2. -/
theorem C7_throttle_limits_per_reset_window_witness :
    (EventProcessor.publish
      { max_queue_size := 100,
        throttle_levels := [(EventType.MARKET_DATA, 2)],
        throttle_counters := [(EventType.MARKET_DATA, 2)],
        throttle_last_reset := [(EventType.MARKET_DATA, 0)] } (1/2)
      { event_type := EventType.MARKET_DATA } =
      (PublishOutcome.returned false,
       { max_queue_size := 100,
         throttle_levels := [(EventType.MARKET_DATA, 2)],
         throttle_counters := [(EventType.MARKET_DATA, 2)],
         throttle_last_reset := [(EventType.MARKET_DATA, 0)],
         dropped_events_count := 0 + 1 })) ∧
    (EventProcessor.runPublish
      { max_queue_size := 100,
        throttle_levels := [(EventType.MARKET_DATA, 2)],
        throttle_counters := [(EventType.MARKET_DATA, 0)],
        throttle_last_reset := [(EventType.MARKET_DATA, 0)] }
      [(0, { event_type := EventType.MARKET_DATA }),
       (1/4, { event_type := EventType.MARKET_DATA }),
       (1/2, { event_type := EventType.MARKET_DATA })]).1.length ≤ 2 - 0 := by
  constructor
  · have h := C7_throttle_limits_per_reset_window.1
      { max_queue_size := 100,
        throttle_levels := [(EventType.MARKET_DATA, 2)],
        throttle_counters := [(EventType.MARKET_DATA, 2)],
        throttle_last_reset := [(EventType.MARKET_DATA, 0)] } (1/2)
      { event_type := EventType.MARKET_DATA } 2 2 0 rfl rfl rfl
      (by norm_num) (le_refl 2)
    simpa [setKey] using h
  · exact C7_throttle_limits_per_reset_window.2 EventType.MARKET_DATA 2 _ _ 0 0
      rfl rfl rfl
      (by
        intro te hte
        fin_cases hte <;> exact ⟨rfl, by norm_num⟩)

/-- Claim C8: every `cancel_order` / `modify_order` call whose precondition
fails — unknown order id, id not in the active set, status outside
{NEW, PARTIALLY_FILLED}, or a requested quantity below `filled_quantity`
for a PARTIALLY_FILLED order — returns false and leaves the whole state
(order table, active set, history, published events) unchanged.  In
particular an already-terminal order (status neither NEW nor
PARTIALLY_FILLED) cannot be cancelled. -/
theorem C8_cancel_modify_precondition_failures :
    (∀ (s : OrderManagerState) (order_id : String),
        lookupKey s.orders order_id = none →
        OrderManager.cancel_order s order_id = (false, s)) ∧
    (∀ (s : OrderManagerState) (order_id : String),
        order_id ∉ s.active_orders →
        OrderManager.cancel_order s order_id = (false, s)) ∧
    (∀ (s : OrderManagerState) (order_id : String) (o : Order),
        lookupKey s.orders order_id = some o →
        o.status ≠ OrderStatus.NEW → o.status ≠ OrderStatus.PARTIALLY_FILLED →
        OrderManager.cancel_order s order_id = (false, s)) ∧
    (∀ (s : OrderManagerState) (order_id : String) (p q : Option ℚ),
        lookupKey s.orders order_id = none →
        OrderManager.modify_order s order_id p q = (false, s)) ∧
    (∀ (s : OrderManagerState) (order_id : String) (p q : Option ℚ),
        order_id ∉ s.active_orders →
        OrderManager.modify_order s order_id p q = (false, s)) ∧
    (∀ (s : OrderManagerState) (order_id : String) (o : Order)
        (p q : Option ℚ),
        lookupKey s.orders order_id = some o →
        o.status ≠ OrderStatus.NEW → o.status ≠ OrderStatus.PARTIALLY_FILLED →
        OrderManager.modify_order s order_id p q = (false, s)) ∧
    (∀ (s : OrderManagerState) (order_id : String) (o : Order) (p : Option ℚ)
        (q : ℚ),
        lookupKey s.orders order_id = some o →
        o.status = OrderStatus.PARTIALLY_FILLED → q < o.filled_quantity →
        OrderManager.modify_order s order_id p (some q) = (false, s)) := by
  refine ⟨?_, ?_, ?_, ?_, ?_, ?_, ?_⟩
  · intro s order_id h
    simp [OrderManager.cancel_order, h]
  · intro s order_id h
    cases hl : lookupKey s.orders order_id <;>
      simp [OrderManager.cancel_order, hl, h]
  · intro s order_id o hl h1 h2
    by_cases hm : order_id ∈ s.active_orders <;>
      simp [OrderManager.cancel_order, hl, hm, h1, h2]
  · intro s order_id p q h
    simp [OrderManager.modify_order, h]
  · intro s order_id p q h
    cases hl : lookupKey s.orders order_id <;>
      simp [OrderManager.modify_order, hl, h]
  · intro s order_id o p q hl h1 h2
    by_cases hm : order_id ∈ s.active_orders <;>
      cases q <;> cases p <;>
        simp [OrderManager.modify_order, hl, hm, h1, h2]
  · intro s order_id o p q hl hst hq
    have h1 : o.status ≠ OrderStatus.NEW := by
      rw [hst]
      intro hcon
      exact OrderStatus.noConfusion hcon
    by_cases hm : order_id ∈ s.active_orders <;>
      cases p <;>
        simp [OrderManager.modify_order, hl, hm, h1, hst, hq,
          not_lt.mpr (le_of_lt hq)]

/-- Witness for C8 at a concrete input: cancelling and modifying a FILLED
(terminal) order, and modifying a PARTIALLY_FILLED order down below its
filled quantity, all return false and leave the state unchanged. -/
theorem C8_cancel_modify_precondition_failures_witness :
    (OrderManager.cancel_order
      { orders :=
          [("A",
            { order_id := "A", quantity := 10,
              filled_quantity := 10, status := OrderStatus.FILLED })],
        active_orders := ["A"] } "A" =
      (false,
       { orders :=
           [("A",
             { order_id := "A", quantity := 10,
               filled_quantity := 10, status := OrderStatus.FILLED })],
         active_orders := ["A"] })) ∧
    (OrderManager.modify_order
      { orders :=
          [("B",
            { order_id := "B", quantity := 10,
              filled_quantity := 4, status := OrderStatus.PARTIALLY_FILLED })],
        active_orders := ["B"] } "B" none (some 3) =
      (false,
       { orders :=
           [("B",
             { order_id := "B", quantity := 10,
               filled_quantity := 4, status := OrderStatus.PARTIALLY_FILLED })],
         active_orders := ["B"] })) := by
  constructor
  · exact C8_cancel_modify_precondition_failures.2.2.1 _ "A" _ rfl
      (by intro h; exact OrderStatus.noConfusion h)
      (by intro h; exact OrderStatus.noConfusion h)
  · exact C8_cancel_modify_precondition_failures.2.2.2.2.2.2 _ "B" _ none 3
      rfl rfl (by norm_num)

/-- Claim C9: `PositionLimitRule.check` passes when the context's order is
on a different instrument; with an order on the rule's instrument and
current signed position `q` it fails exactly when the prospective
magnitude — `|q + qty|` for BUY, `|q − qty|` for SELL — exceeds
`max_position`; and with no order (periodic context) it fails exactly when
`|q|` exceeds `max_position`. -/
theorem C9_position_limit_rule_check :
    (∀ (rule : PositionLimitRule) (o : Order) (q : ℚ),
        o.instrument_id ≠ rule.instrument_id →
        rule.checkPassed (some o) q = true) ∧
    (∀ (rule : PositionLimitRule) (o : Order) (q : ℚ),
        o.instrument_id = rule.instrument_id → o.side = OrderSide.BUY →
        (rule.checkPassed (some o) q = false ↔
          rule.max_position < abs (q + o.quantity))) ∧
    (∀ (rule : PositionLimitRule) (o : Order) (q : ℚ),
        o.instrument_id = rule.instrument_id → o.side = OrderSide.SELL →
        (rule.checkPassed (some o) q = false ↔
          rule.max_position < abs (q - o.quantity))) ∧
    (∀ (rule : PositionLimitRule) (q : ℚ),
        (rule.checkPassed none q = false ↔ rule.max_position < abs q)) := by
  refine ⟨?_, ?_, ?_, ?_⟩
  · intro rule o q h
    simp [PositionLimitRule.checkPassed, h]
  · intro rule o q h hside
    by_cases hc : rule.max_position < abs (q + o.quantity) <;>
      simp [PositionLimitRule.checkPassed, h, hside, hc]
  · intro rule o q h hside
    by_cases hc : rule.max_position < abs (q - o.quantity) <;>
      simp [PositionLimitRule.checkPassed, h, hside, hc]
  · intro rule q
    by_cases hc : rule.max_position < abs q <;>
      simp [PositionLimitRule.checkPassed, hc]

/-- Witness for C9 at concrete inputs: with a limit of 5 on "X" and a
current position of 4, a BUY 2 on "X" fails (|4 + 2| = 6 > 5), an order on
"Y" passes, and a periodic check at |4| ≤ 5 passes. -/
theorem C9_position_limit_rule_check_witness :
    (PositionLimitRule.checkPassed ⟨"X", 5⟩
      (some { instrument_id := "Y", side := OrderSide.BUY, quantity := 2 })
      4 = true) ∧
    (PositionLimitRule.checkPassed ⟨"X", 5⟩
      (some { instrument_id := "X", side := OrderSide.BUY, quantity := 2 })
      4 = false) ∧
    (PositionLimitRule.checkPassed ⟨"X", 5⟩
      (some { instrument_id := "X", side := OrderSide.SELL, quantity := 2 })
      4 = true) := by
  refine ⟨?_, ?_, ?_⟩
  · exact C9_position_limit_rule_check.1 ⟨"X", 5⟩ _ 4 (by simp)
  · exact (C9_position_limit_rule_check.2.1 ⟨"X", 5⟩ _ 4 rfl rfl).mpr
      (by norm_num)
  · have h := C9_position_limit_rule_check.2.2.1 ⟨"X", 5⟩
      { instrument_id := "X", side := OrderSide.SELL, quantity := 2 } 4 rfl rfl
    rcases hb : PositionLimitRule.checkPassed ⟨"X", 5⟩
      (some { instrument_id := "X", side := OrderSide.SELL, quantity := 2 })
      4 with _ | _
    · exfalso
      have := h.mp hb
      norm_num at this
    · rfl

/-- Claim C10: `PositionManager.get_position` on an unknown instrument
inserts a fresh flat position (quantity 0, average entry price 0, realized
P&L 0) at the end of the table and returns it, leaving every other entry
unchanged; consequently even the read-only periodic
`PositionLimitRule.check` on a never-traded instrument grows the table by
one entry, which `get_all_positions` and the `position_count` statistic
then include. -/
theorem C10_get_position_lazily_creates (positions : List (String × Position))
    (instrument_id : String)
    (h : lookupKey positions instrument_id = none) :
    (PositionManager.get_position positions instrument_id).1 =
      { instrument_id := instrument_id } ∧
    (PositionManager.get_position positions instrument_id).1.quantity = 0 ∧
    (PositionManager.get_position positions
      instrument_id).1.average_entry_price = 0 ∧
    (PositionManager.get_position positions instrument_id).1.realized_pnl
      = 0 ∧
    (PositionManager.get_position positions instrument_id).2 =
      positions ++ [(instrument_id, { instrument_id := instrument_id })] ∧
    (∀ other, other ≠ instrument_id →
        lookupKey (PositionManager.get_position positions instrument_id).2
          other = lookupKey positions other) ∧
    (∀ rule : PositionLimitRule, rule.instrument_id = instrument_id →
        (rule.checkWithState none positions).2 =
          positions ++ [(instrument_id, { instrument_id := instrument_id })] ∧
        PositionManager.positionCount (rule.checkWithState none positions).2 =
          PositionManager.positionCount positions + 1 ∧
        ({ instrument_id := instrument_id } : Position) ∈
          PositionManager.get_all_positions
            (rule.checkWithState none positions).2) := by
  refine ⟨?_, ?_, ?_, ?_, ?_, ?_, ?_⟩
  · simp [PositionManager.get_position, h]
  · simp [PositionManager.get_position, h]
  · simp [PositionManager.get_position, h]
  · simp [PositionManager.get_position, h]
  · simp [PositionManager.get_position, h]
  · intro other hother
    simp only [PositionManager.get_position, h]
    exact lookupKey_append_single_other positions instrument_id other _ hother
  · intro rule hrule
    subst hrule
    refine ⟨?_, ?_, ?_⟩
    · simp [PositionLimitRule.checkWithState, PositionManager.get_position, h]
    · simp [PositionLimitRule.checkWithState, PositionManager.get_position, h,
        PositionManager.positionCount]
    · simp [PositionLimitRule.checkWithState, PositionManager.get_position, h,
        PositionManager.get_all_positions]

/-- Witness for C10 at a concrete input: on an empty table, a periodic
position-limit check for instrument "Z" creates the flat position for "Z"
and the table grows from 0 to 1 entries. -/
theorem C10_get_position_lazily_creates_witness :
    (PositionManager.get_position [] "Z").1 = { instrument_id := "Z" } ∧
    ((⟨"Z", 5⟩ : PositionLimitRule).checkWithState none []).2 =
      [("Z", { instrument_id := "Z" })] ∧
    PositionManager.positionCount
      ((⟨"Z", 5⟩ : PositionLimitRule).checkWithState none []).2 = 0 + 1 := by
  have h := C10_get_position_lazily_creates [] "Z" rfl
  exact ⟨h.1, by simpa using (h.2.2.2.2.2.2 ⟨"Z", 5⟩ rfl).1,
    (h.2.2.2.2.2.2 ⟨"Z", 5⟩ rfl).2.1⟩

end TradingEngine
